import Mathlib

/-!
# Verification of the code-summarizer pipeline

A shallow embedding of the `code-summarizer` repository: the typed error
taxonomy of `src/error/index.ts`, and the summarization pipeline
(file discovery consumers, the Gemini capability wrapper, the per-file
summarizer, the batch scheduler and the report serializer) whose
implementation module is exercised by the repository's test suites.
Machinery that performs effects (filesystem, network, concurrency) is
embedded as explicit state: the filesystem is a pair of `stat`/`read`
oracles, effects are recorded in an event log, and the concurrent
completion order of a batch is an explicit schedule parameter.
-/

/-- JavaScript-style substring containment, as used by `String.includes`:
`strContains s pat` holds when `pat` occurs contiguously inside `s`
(case-sensitive). -/
def strContains (s pat : String) : Bool :=
  decide (pat.data <:+: s.data)

theorem strContains_iff (s pat : String) :
    strContains s pat = true ↔ pat.data <:+: s.data := by
  simp [strContains]

/-! ## Error taxonomy (`src/error/index.ts`) -/

/-- The classified-error record carried by `BaseError` and its subclasses:
`code`, `message`, `isRetryable`, `statusCode` and the optional `context`
key-value map. -/
structure BaseError where
  code : String
  message : String
  isRetryable : Bool
  statusCode : Nat
  context : Option (List (String × String))
deriving DecidableEq

/-- The optional fields of the `options` argument accepted by the
`BaseError` constructor. -/
structure ErrorOptions where
  code : Option String
  isRetryable : Option Bool
  statusCode : Option Nat
  context : Option (List (String × String))

/-- The all-absent options value (`options` omitted at a call site). -/
def noOpts : ErrorOptions := ⟨none, none, none, none⟩

/-- JavaScript `a || b` on strings: the empty string is falsy. -/
def jsOrStr (v dflt : String) : String :=
  if v = "" then dflt else v

/-- JavaScript `a || b` on numbers: `0` is falsy. -/
def jsOrNat (v dflt : Nat) : Nat :=
  if v = 0 then dflt else v

/-- The `BaseError` constructor: `code` defaults to `'UNKNOWN_ERROR'`,
`isRetryable` to `false` and `statusCode` to `500`, each via JavaScript
`||` (so an explicitly falsy value also takes the default). -/
def mkBaseError (message : String) (opts : ErrorOptions) : BaseError :=
  { code := jsOrStr (opts.code.getD "") "UNKNOWN_ERROR"
    message := message
    isRetryable := opts.isRetryable.getD false
    statusCode := jsOrNat (opts.statusCode.getD 0) 500
    context := opts.context }

/-- The `AuthError` subclass constructor: spreads the caller's options
then forces `code := 'AUTH_ERROR'` and `statusCode := 401`. -/
def mkAuthError (message : String) (opts : ErrorOptions) : BaseError :=
  mkBaseError message
    { code := some "AUTH_ERROR"
      isRetryable := opts.isRetryable
      statusCode := some 401
      context := opts.context }

/-- The `ApiKeyError` subclass constructor: forces
`code := 'INVALID_API_KEY'` and `statusCode := 401`. -/
def mkApiKeyError (message : String) (opts : ErrorOptions) : BaseError :=
  mkBaseError message
    { code := some "INVALID_API_KEY"
      isRetryable := opts.isRetryable
      statusCode := some 401
      context := opts.context }

/-- The `LLMError` subclass constructor: forces `code := 'LLM_ERROR'`;
`isRetryable` defaults to `true` (via an explicit `!== undefined` test,
so `false` is kept). -/
def mkLLMError (message : String) (opts : ErrorOptions) : BaseError :=
  mkBaseError message
    { code := some "LLM_ERROR"
      isRetryable := some (opts.isRetryable.getD true)
      statusCode := opts.statusCode
      context := opts.context }

/-- The `FileSystemError` subclass constructor: forces
`code := 'FILE_SYSTEM_ERROR'`. -/
def mkFileSystemError (message : String) (opts : ErrorOptions) : BaseError :=
  mkBaseError message
    { code := some "FILE_SYSTEM_ERROR"
      isRetryable := opts.isRetryable
      statusCode := opts.statusCode
      context := opts.context }

/-- The `ConfigError` subclass constructor: forces
`code := 'CONFIG_ERROR'`. -/
def mkConfigError (message : String) (opts : ErrorOptions) : BaseError :=
  mkBaseError message
    { code := some "CONFIG_ERROR"
      isRetryable := opts.isRetryable
      statusCode := opts.statusCode
      context := opts.context }

/-- The `unknown` value handed to `wrapError`: either an already
classified `BaseError` instance, a plain JavaScript `Error` (carrying a
message), or any other value (whose `String(...)` rendering is kept). -/
inductive ErrValue where
  | base (e : BaseError)
  | jsError (message : String)
  | other (repr : String)
deriving DecidableEq

/-- `error instanceof Error ? error.message : String(error)`. -/
def errMessage : ErrValue → String
  | ErrValue.base e => e.message
  | ErrValue.jsError m => m
  | ErrValue.other r => r

/-- `wrapError` from `src/error/index.ts`: returns an already classified
error unchanged; otherwise categorizes the failure by case-sensitive
substring checks on its message ("API key"/"apiKey", then
"file not found"/"ENOENT", then "config"/"configuration"), falling back
to a plain `BaseError` whose message is the original one, or the default
message when the original is empty. -/
def wrapError (error : ErrValue) (defaultMessage : String) : BaseError :=
  match error with
  | ErrValue.base e => e
  | _ =>
    let message := errMessage error
    if strContains message "API key" || strContains message "apiKey" then
      mkApiKeyError message noOpts
    else if strContains message "file not found" || strContains message "ENOENT" then
      mkFileSystemError message noOpts
    else if strContains message "config" || strContains message "configuration" then
      mkConfigError message noOpts
    else
      mkBaseError (jsOrStr message defaultMessage) noOpts

/-- The default value of `wrapError`'s second parameter. -/
def defaultWrapMessage : String := "An unexpected error occurred"

/-! ## Summarization capability (modelled from the spec) -/

/-- Modelled from the spec: the `detailLevel` knob of `SummaryOptions`
(`index.ts` is not part of the sources; only its tests are). -/
inductive DetailLevel where
  | low
  | medium
  | high
deriving DecidableEq

/-- Modelled from the spec: `SummaryOptions`, an immutable pair of a
detail level and a positive character budget. -/
structure SummaryOptions where
  detailLevel : DetailLevel
  maxLength : Nat
deriving DecidableEq

/-- Modelled from the spec: the defaults applied when options are
absent (`detailLevel = medium`, `maxLength = 500`). -/
def defaultOptions : SummaryOptions := ⟨DetailLevel.medium, 500⟩

/-- Modelled from the spec: the instruction phrase contributed by each
detail level (`low → "very brief overview"`, `medium` adds no
qualifier, `high → "detailed analysis"`). -/
def detailPhrase : DetailLevel → String
  | DetailLevel.low => " Provide a very brief overview."
  | DetailLevel.medium => ""
  | DetailLevel.high => " Provide a detailed analysis."

/-- Modelled from the spec: `GeminiLLM`'s prompt construction, missing
with `index.ts`. The language name and the verbatim `maxLength` budget
("approximately {maxLength} characters") are embedded, the detail-level
phrase is appended, and the source text follows the instruction. -/
def buildPrompt (sourceText language : String) (options : SummaryOptions) : String :=
  "Summarize the following " ++ language ++ " code in approximately " ++
    toString options.maxLength ++ " characters." ++
    detailPhrase options.detailLevel ++ "\n\n" ++ sourceText

/-- Modelled from the spec: `GeminiLLM.summarize`, missing with
`index.ts`. The backend (the materialized `streamText` call) is an
oracle from the prompt to either a completion or a failure; any backend
failure is contained and replaced by the fixed sentinel string. -/
def geminiSummarize (backend : String → Except String String)
    (sourceText language : String) (options : Option SummaryOptions) : String :=
  let prompt := buildPrompt sourceText language (options.getD defaultOptions)
  match backend prompt with
  | Except.ok text => text
  | Except.error _ => "Failed to generate summary."

/-! ## Per-file summarization (modelled from the spec) -/

/-- One summarized file: its path relative to the scan root and the
summary text. -/
structure FileSummary where
  relativePath : String
  summary : String
deriving DecidableEq

/-- Modelled from the spec: the abstract summarization capability
(`LLM` contract) — a total function from source text, language and
options to a summary string, which therefore never raises. -/
structure LLM where
  run : String → String → Option SummaryOptions → String

/-- The filesystem as seen by the summarizer: `stat` yields a byte size
or a failure message, `read` yields a file's text content or a failure
message. -/
structure FileSystem where
  stat : String → Except String Nat
  read : String → Except String String

/-- The observable effects of a `summarizeFile` run, recorded in
order: a `stat` call, a `readFile` call, or an invocation of the
summarization capability. -/
inductive Event where
  | statEv (path : String)
  | readEv (path : String)
  | llmEv (source language : String) (options : Option SummaryOptions)
deriving DecidableEq

/-- Modelled from the spec: `path.relative(scanRoot, filePath)` as used
on the pipeline's absolute paths — strips the `scanRoot ++ "/"` part
when it leads the path. -/
def relativeTo (scanRoot filePath : String) : String :=
  if (scanRoot ++ "/").isPrefixOf filePath then
    filePath.drop (scanRoot.length + 1)
  else
    filePath

/-- Modelled from the spec: the fixed extension → language mapping
(unknown extensions map to the sentinel `"Unknown"`). -/
def extensionToLanguage (filePath : String) : String :=
  if ".js".data <:+ filePath.data then "JavaScript"
  else if ".ts".data <:+ filePath.data then "TypeScript"
  else if ".py".data <:+ filePath.data then "Python"
  else "Unknown"

/-- Modelled from the spec: the default 500 KiB size ceiling. -/
def defaultMaxBytes : Nat := 500 * 1024

/-- Modelled from the spec: the summary text produced when a stat/read
failure is caught, classified through the error taxonomy, and converted
into an explanatory record. -/
def failureSummary (e : String) : String :=
  "Error summarizing file: " ++ (wrapError (ErrValue.jsError e) defaultWrapMessage).message

/-- Modelled from the spec: `summarizeFile`, missing with `index.ts`.
Stats the file; an oversize file short-circuits with the oversize
sentinel before any read or capability call; otherwise the content is
read, the language inferred from the extension, and the capability
invoked. Stat/read failures are caught and converted into an
explanatory summary; the function always returns a record, and its
event log records exactly the effects performed. -/
def summarizeFile (fs : FileSystem) (llm : LLM) (filePath scanRoot : String)
    (maxBytes : Nat) (options : Option SummaryOptions) : FileSummary × List Event :=
  let rel := relativeTo scanRoot filePath
  match fs.stat filePath with
  | Except.error e => (⟨rel, failureSummary e⟩, [Event.statEv filePath])
  | Except.ok size =>
    if maxBytes < size then
      (⟨rel, "File is too large to summarize."⟩, [Event.statEv filePath])
    else
      match fs.read filePath with
      | Except.error e =>
          (⟨rel, failureSummary e⟩, [Event.statEv filePath, Event.readEv filePath])
      | Except.ok content =>
          let lang := extensionToLanguage filePath
          (⟨rel, llm.run content lang options⟩,
            [Event.statEv filePath, Event.readEv filePath, Event.llmEv content lang options])

/-! ## Batch scheduler (modelled from the spec) -/

/-- Helper for `chunkList`: consumes the list structurally, `cap` being
the remaining capacity of the chunk currently accumulated (reversed)
in `acc`. -/
def chunkAux (n : Nat) : List α → Nat → List α → List (List α)
  | [], _, acc => if acc.isEmpty then [] else [acc.reverse]
  | x :: xs, Nat.succ cap, acc => chunkAux n xs cap (x :: acc)
  | x :: xs, 0, acc => acc.reverse :: chunkAux n xs (n - 1) [x]

/-- Modelled from the spec: partitioning a list into consecutive chunks
of at most `n` elements. -/
def chunkList (n : Nat) (l : List α) : List (List α) :=
  chunkAux n l n []

/-- Helper for `promiseAll`: processes task indices in the completion
order `order`, writing each task's result into its own slot (slot `i`
for task `i`), exactly as `Promise.all` assigns results by position and
not by completion time. -/
def fillSlots (f : α → β) (tasks : List α) : List Nat → List (Option β) → List (Option β)
  | [], acc => acc
  | i :: rest, acc => fillSlots f tasks rest (acc.set i ((tasks[i]?).map f))

/-- Modelled from the spec: the join barrier of one concurrent chunk.
`order` is the completion schedule of the chunk's concurrent calls; the
results are collected into input-indexed slots and extracted after all
have completed (`dflt` pads any slot a defective schedule never
filled). -/
def promiseAll (f : α → β) (dflt : β) (tasks : List α) (order : List Nat) : List β :=
  (fillSlots f tasks order (List.replicate tasks.length Option.none)).map
    (fun o => o.getD dflt)

/-- The padding record used for a slot an invalid schedule never
resolved. -/
def emptySummary : FileSummary := ⟨"", ""⟩

/-- Modelled from the spec: `summarizeFiles`, missing with `index.ts`.
A non-positive batch size is invalid configuration and signals a
`ConfigError`; otherwise the paths are cut into consecutive chunks of
at most `batchSize`, each chunk's files run concurrently (`sched` gives
each chunk's completion order) behind a join barrier, and chunk results
are concatenated in input order. -/
def summarizeFiles (fs : FileSystem) (llm : LLM) (paths : List String)
    (scanRoot : String) (batchSize : Int) (options : Option SummaryOptions)
    (sched : List (List Nat)) : Except BaseError (List FileSummary) :=
  if batchSize ≤ 0 then
    Except.error (mkConfigError "Batch size must be a positive integer" noOpts)
  else
    Except.ok (List.flatten (List.zipWith
      (fun chunk order => promiseAll
        (fun p => (summarizeFile fs llm p scanRoot defaultMaxBytes options).1)
        emptySummary chunk order)
      (chunkList batchSize.toNat paths) sched))

/-! ## Report writer (modelled from the spec) -/

/-- Modelled from the spec: the fixed report serialization — each entry
is the two lines `relativePath` and `summary`, entries separated by one
blank line, with no extra separator. -/
def serializeSummaries : List FileSummary → String
  | [] => ""
  | s :: rest =>
      s.relativePath ++ "\n" ++ s.summary ++ "\n" ++
        (if rest.isEmpty then "" else "\n" ++ serializeSummaries rest)

/-- A single write of a text file: target path, full content, and
encoding. -/
structure WriteOp where
  path : String
  content : String
  encoding : String
deriving DecidableEq

/-- Modelled from the spec: `writeSummariesToFile`, missing with
`index.ts` — one UTF-8 write of the serialized report to the output
path. -/
def writeSummariesToFile (summaries : List FileSummary) (outputPath : String) : WriteOp :=
  ⟨outputPath, serializeSummaries summaries, "utf-8"⟩

/-! ## Scheduler lemmas -/

theorem fillSlots_length (f : α → β) (tasks : List α) :
    ∀ (order : List Nat) (acc : List (Option β)),
      (fillSlots f tasks order acc).length = acc.length := by
  intro order
  induction order with
  | nil => intro acc; rfl
  | cons i rest ih =>
      intro acc
      simp [fillSlots, ih]

theorem fillSlots_getElem? (f : α → β) (tasks : List α) :
    ∀ (order : List Nat) (acc : List (Option β)),
      acc.length = tasks.length →
      ∀ j, (fillSlots f tasks order acc)[j]? =
        if j ∈ order ∧ j < tasks.length then some ((tasks[j]?).map f)
        else acc[j]? := by
  intro order
  induction order with
  | nil =>
      intro acc _ j
      simp [fillSlots]
  | cons i rest ih =>
      intro acc hacc j
      have hlen : (acc.set i ((tasks[i]?).map f)).length = tasks.length := by
        simp [hacc]
      rw [fillSlots, ih _ hlen j]
      by_cases hmem : j ∈ rest ∧ j < tasks.length
      · simp [hmem, List.mem_cons, hmem.1, hmem.2]
      · by_cases hji : j = i
        · subst hji
          by_cases hlt : j < tasks.length
          · simp [hmem, hlt, List.getElem?_set, hacc]
          · have hnone : acc[j]? = none := by
              apply List.getElem?_eq_none
              omega
            simp [hmem, hlt, List.getElem?_set, hacc, hnone]
        · have hij : i ≠ j := fun h => hji h.symm
          have hno : ¬ ((j = i ∨ j ∈ rest) ∧ j < tasks.length) := by
            intro hc
            rcases hc with ⟨hcm, hcl⟩
            rcases hcm with h | h
            · exact hji h
            · exact hmem ⟨h, hcl⟩
          simp [hmem, hno, List.getElem?_set, hij]

theorem promiseAll_perm (f : α → β) (dflt : β) (tasks : List α) (order : List Nat)
    (horder : order.Perm (List.range tasks.length)) :
    promiseAll f dflt tasks order = tasks.map f := by
  apply List.ext_getElem?
  intro j
  have hrep : (List.replicate tasks.length (Option.none (α := β))).length = tasks.length := by
    simp
  rw [promiseAll, List.getElem?_map, fillSlots_getElem? f tasks order _ hrep j,
    List.getElem?_map]
  by_cases hj : j < tasks.length
  · have hmem : j ∈ order := by
      rw [horder.mem_iff, List.mem_range]
      exact hj
    have : tasks[j]? = some (tasks.get ⟨j, hj⟩) := by
      simp [List.getElem?_eq_getElem hj]
    simp [hmem, hj, this]
  · have hmem : j ∉ order := by
      rw [horder.mem_iff, List.mem_range]
      omega
    have hnone : tasks[j]? = none := by
      apply List.getElem?_eq_none
      omega
    simp [hmem, hj, hnone, List.getElem?_replicate]

theorem chunkAux_flatten (n : Nat) :
    ∀ (l : List α) (cap : Nat) (acc : List α),
      (chunkAux n l cap acc).flatten = acc.reverse ++ l := by
  intro l
  induction l with
  | nil =>
      intro cap acc
      by_cases h : acc.isEmpty
      · have : acc = [] := by
          simpa [List.isEmpty_iff] using h
        simp [chunkAux, h, this]
      · simp [chunkAux, h]
  | cons x xs ih =>
      intro cap acc
      cases cap with
      | zero => simp [chunkAux, ih]
      | succ c => simp [chunkAux, ih]

theorem chunkList_flatten (n : Nat) (l : List α) :
    (chunkList n l).flatten = l := by
  simpa using chunkAux_flatten n l n []

theorem zipWith_promiseAll (f : α → β) (d : β) :
    ∀ {chunks : List (List α)} {sched : List (List Nat)},
      List.Forall₂ (fun chunk order => order.Perm (List.range chunk.length)) chunks sched →
      List.zipWith (fun chunk order => promiseAll f d chunk order) chunks sched =
        chunks.map (List.map f) := by
  intro chunks sched h
  induction h with
  | nil => rfl
  | cons hco _ ih =>
      simp [List.zipWith, promiseAll_perm _ _ _ _ hco, ih]

theorem summarizeFile_relativePath (fs : FileSystem) (llm : LLM)
    (filePath scanRoot : String) (maxBytes : Nat) (options : Option SummaryOptions) :
    (summarizeFile fs llm filePath scanRoot maxBytes options).1.relativePath =
      relativeTo scanRoot filePath := by
  unfold summarizeFile
  cases fs.stat filePath with
  | error e => rfl
  | ok size =>
      by_cases h : maxBytes < size
      · simp [h]
      · cases hr : fs.read filePath with
        | error e => simp [h, hr]
        | ok content => simp [h, hr]

/-! ## Claim theorems: batch scheduler and per-file summarizer -/

/-- C1: for every list of input paths and every completion schedule of
the concurrent per-chunk calls, `summarizeFiles` returns a list of
`FileSummary` whose length equals the input length, and whose i-th
entry carries the relative path of the i-th input path — output order
is input order regardless of completion order. -/
theorem summarizeFiles_preserves_order (fs : FileSystem) (llm : LLM)
    (paths : List String) (scanRoot : String) (batchSize : Int)
    (options : Option SummaryOptions) (sched : List (List Nat))
    (hb : 0 < batchSize)
    (hs : List.Forall₂ (fun chunk order => order.Perm (List.range chunk.length))
      (chunkList batchSize.toNat paths) sched) :
    ∃ l, summarizeFiles fs llm paths scanRoot batchSize options sched = Except.ok l
      ∧ l.length = paths.length
      ∧ ∀ i : Nat, (l[i]?).map FileSummary.relativePath =
          (paths[i]?).map (relativeTo scanRoot) := by
  refine ⟨paths.map
    (fun p => (summarizeFile fs llm p scanRoot defaultMaxBytes options).1), ?_, ?_, ?_⟩
  · unfold summarizeFiles
    rw [if_neg (by omega)]
    rw [zipWith_promiseAll _ _ hs, ← List.map_flatten, chunkList_flatten]
  · simp
  · intro i
    rw [List.getElem?_map, Option.map_map]
    cases paths[i]? with
    | none => rfl
    | some p => simp [Function.comp, summarizeFile_relativePath]

theorem summarizeFiles_preserves_order_witness :
    ∃ l, summarizeFiles ⟨fun _ => Except.ok 10, fun _ => Except.ok "const a = 1;"⟩
          ⟨fun _ _ _ => "A tiny file."⟩ ["/t/a.js", "/t/b.js", "/t/c.js"] "/t" 2 none
          [[1, 0], [0]] = Except.ok l
      ∧ l.length = (["/t/a.js", "/t/b.js", "/t/c.js"] : List String).length
      ∧ ∀ i : Nat, (l[i]?).map FileSummary.relativePath =
          ((["/t/a.js", "/t/b.js", "/t/c.js"] : List String)[i]?).map (relativeTo "/t") :=
  summarizeFiles_preserves_order _ _ _ _ _ _ _ (by decide) (by decide)

/-- C2: a file whose stat-reported size exceeds the `maxBytes` ceiling
yields the summary sentinel "File is too large to summarize.", and the
run's event log is exactly the single stat call: the content is never
read and the capability is never invoked. -/
theorem summarizeFile_oversize_shortcircuit (fs : FileSystem) (llm : LLM)
    (filePath scanRoot : String) (maxBytes : Nat) (options : Option SummaryOptions)
    (size : Nat) (hstat : fs.stat filePath = Except.ok size) (hsize : maxBytes < size) :
    (summarizeFile fs llm filePath scanRoot maxBytes options).1.summary =
        "File is too large to summarize."
      ∧ (summarizeFile fs llm filePath scanRoot maxBytes options).2 =
          [Event.statEv filePath] := by
  unfold summarizeFile
  rw [hstat]
  simp [hsize]

theorem summarizeFile_oversize_shortcircuit_witness :
    (summarizeFile ⟨fun _ => Except.ok (1000 * 1024), fun _ => Except.ok ""⟩
        ⟨fun _ _ _ => "S"⟩ "/test/big-file.js" "/test" defaultMaxBytes none).1.summary =
        "File is too large to summarize."
      ∧ (summarizeFile ⟨fun _ => Except.ok (1000 * 1024), fun _ => Except.ok ""⟩
          ⟨fun _ _ _ => "S"⟩ "/test/big-file.js" "/test" defaultMaxBytes none).2 =
          [Event.statEv "/test/big-file.js"] :=
  summarizeFile_oversize_shortcircuit _ _ _ _ _ _ (1000 * 1024) rfl (by decide)

/-- C8: a batch size of zero or a negative batch size makes
`summarizeFiles` signal a `ConfigError` (code CONFIG_ERROR) for every
input; it never returns a success value. -/
theorem summarizeFiles_rejects_invalid_batch (fs : FileSystem) (llm : LLM)
    (paths : List String) (scanRoot : String) (batchSize : Int)
    (options : Option SummaryOptions) (sched : List (List Nat))
    (h : batchSize ≤ 0) :
    summarizeFiles fs llm paths scanRoot batchSize options sched =
        Except.error (mkConfigError "Batch size must be a positive integer" noOpts)
      ∧ (mkConfigError "Batch size must be a positive integer" noOpts).code = "CONFIG_ERROR"
      ∧ ∀ l, summarizeFiles fs llm paths scanRoot batchSize options sched ≠ Except.ok l := by
  have h1 : summarizeFiles fs llm paths scanRoot batchSize options sched =
      Except.error (mkConfigError "Batch size must be a positive integer" noOpts) := by
    unfold summarizeFiles
    rw [if_pos h]
  refine ⟨h1, rfl, ?_⟩
  intro l hl
  rw [h1] at hl
  exact Except.noConfusion hl

theorem summarizeFiles_rejects_invalid_batch_witness :
    (summarizeFiles ⟨fun _ => Except.ok 0, fun _ => Except.ok ""⟩ ⟨fun _ _ _ => ""⟩
          ["/t/a.js"] "/t" 0 none [] =
        Except.error (mkConfigError "Batch size must be a positive integer" noOpts)
      ∧ (mkConfigError "Batch size must be a positive integer" noOpts).code = "CONFIG_ERROR"
      ∧ ∀ l, summarizeFiles ⟨fun _ => Except.ok 0, fun _ => Except.ok ""⟩ ⟨fun _ _ _ => ""⟩
          ["/t/a.js"] "/t" 0 none [] ≠ Except.ok l)
    ∧ (summarizeFiles ⟨fun _ => Except.ok 0, fun _ => Except.ok ""⟩ ⟨fun _ _ _ => ""⟩
          ["/t/a.js"] "/t" (-1) none [] =
        Except.error (mkConfigError "Batch size must be a positive integer" noOpts)
      ∧ (mkConfigError "Batch size must be a positive integer" noOpts).code = "CONFIG_ERROR"
      ∧ ∀ l, summarizeFiles ⟨fun _ => Except.ok 0, fun _ => Except.ok ""⟩ ⟨fun _ _ _ => ""⟩
          ["/t/a.js"] "/t" (-1) none [] ≠ Except.ok l) :=
  ⟨summarizeFiles_rejects_invalid_batch _ _ _ _ 0 _ _ (by decide),
   summarizeFiles_rejects_invalid_batch _ _ _ _ (-1) _ _ (by decide)⟩

/-! ## Claim theorems: capability failure containment and report format -/

/-- C3: the capability's `summarize` is a total function (it never
raises), and whenever the underlying backend fails on the constructed
prompt it returns exactly the sentinel "Failed to generate summary.". -/
theorem geminiSummarize_failure_sentinel (backend : String → Except String String)
    (sourceText language : String) (options : Option SummaryOptions) (e : String)
    (h : backend (buildPrompt sourceText language (options.getD defaultOptions)) =
      Except.error e) :
    geminiSummarize backend sourceText language options = "Failed to generate summary." := by
  unfold geminiSummarize
  simp only []
  rw [h]

theorem geminiSummarize_failure_sentinel_witness :
    geminiSummarize (fun _ => Except.error "API error") "function test()" "JavaScript" none =
      "Failed to generate summary." :=
  geminiSummarize_failure_sentinel _ _ _ _ "API error" rfl

/-- C4: the report serializer emits, for each summary in order, the two
lines `relativePath` and `summary` with entries separated by one blank
line and no extra separator; on the two summaries of the repository's
test it produces exactly the expected report text, written as UTF-8. -/
theorem writeSummariesToFile_format :
    (writeSummariesToFile
        [⟨"file1.js", "Summary of file1.js"⟩, ⟨"file2.js", "Summary of file2.js"⟩]
        "/test/output.txt").content =
      "file1.js\nSummary of file1.js\n\nfile2.js\nSummary of file2.js\n"
    ∧ (writeSummariesToFile
        [⟨"file1.js", "Summary of file1.js"⟩, ⟨"file2.js", "Summary of file2.js"⟩]
        "/test/output.txt").encoding = "utf-8"
    ∧ ∀ (s : FileSummary) (rest : List FileSummary),
        serializeSummaries (s :: rest) =
          s.relativePath ++ "\n" ++ s.summary ++ "\n" ++
            (if rest.isEmpty then "" else "\n" ++ serializeSummaries rest) :=
  ⟨by decide, rfl, fun s rest => rfl⟩

/-! ## Claim theorems: error taxonomy -/

/-- Unfolding of `wrapError` on a plain JavaScript `Error` value. -/
theorem wrapError_jsError (m d : String) :
    wrapError (ErrValue.jsError m) d =
      (if strContains m "API key" || strContains m "apiKey" then
        mkApiKeyError m noOpts
      else if strContains m "file not found" || strContains m "ENOENT" then
        mkFileSystemError m noOpts
      else if strContains m "config" || strContains m "configuration" then
        mkConfigError m noOpts
      else
        mkBaseError (jsOrStr m d) noOpts) := rfl

/-- Unfolding of `wrapError` on a non-`Error` value. -/
theorem wrapError_other (r d : String) :
    wrapError (ErrValue.other r) d =
      (if strContains r "API key" || strContains r "apiKey" then
        mkApiKeyError r noOpts
      else if strContains r "file not found" || strContains r "ENOENT" then
        mkFileSystemError r noOpts
      else if strContains r "config" || strContains r "configuration" then
        mkConfigError r noOpts
      else
        mkBaseError (jsOrStr r d) noOpts) := rfl

theorem code_mkApiKeyError (m : String) (o : ErrorOptions) :
    (mkApiKeyError m o).code = "INVALID_API_KEY" := rfl

theorem code_mkFileSystemError (m : String) (o : ErrorOptions) :
    (mkFileSystemError m o).code = "FILE_SYSTEM_ERROR" := rfl

theorem code_mkConfigError (m : String) (o : ErrorOptions) :
    (mkConfigError m o).code = "CONFIG_ERROR" := rfl

theorem code_mkAuthError (m : String) (o : ErrorOptions) :
    (mkAuthError m o).code = "AUTH_ERROR" := rfl

theorem code_mkBaseError_noOpts (m : String) :
    (mkBaseError m noOpts).code = "UNKNOWN_ERROR" := rfl

theorem message_mkBaseError (m : String) (o : ErrorOptions) :
    (mkBaseError m o).message = m := rfl

/-- C5: `wrapError` is idempotent — an already classified error (a
`BaseError` instance) is returned unchanged, so classifying the result
of a classification changes nothing. -/
theorem wrapError_idempotent (e : ErrValue) (d : String) :
    wrapError (ErrValue.base (wrapError e d)) d = wrapError e d := rfl

/-- C6 counterexample: the message "apiKey ENOENT" contains neither
occurrence of "API key" but does contain "ENOENT"; the claimed rule
list would classify it as a FileSystemError, yet `wrapError` classifies
it as an ApiKeyError because the first rule also matches the marker
"apiKey", which the claim omits. -/
theorem wrapError_rules_cex :
    strContains "apiKey ENOENT" "API key" = false
    ∧ strContains "apiKey ENOENT" "ENOENT" = true
    ∧ (wrapError (ErrValue.jsError "apiKey ENOENT") defaultWrapMessage).code =
        "INVALID_API_KEY"
    ∧ "INVALID_API_KEY" ≠ "FILE_SYSTEM_ERROR" := by
  refine ⟨by decide, by decide, ?_, by decide⟩
  decide

/-- C6 (amended): `wrapError` categorizes a raw failure by
case-sensitive substring containment, top-to-bottom with first match
winning: "API key" or "apiKey" yields an ApiKeyError; otherwise
"file not found" or "ENOENT" yields a FileSystemError; otherwise
"config" or "configuration" yields a ConfigError. -/
theorem wrapError_rules_ordered (msg d : String) :
    ((strContains msg "API key" = true ∨ strContains msg "apiKey" = true) →
        (wrapError (ErrValue.jsError msg) d).code = "INVALID_API_KEY")
    ∧ (strContains msg "API key" = false → strContains msg "apiKey" = false →
        (strContains msg "file not found" = true ∨ strContains msg "ENOENT" = true) →
        (wrapError (ErrValue.jsError msg) d).code = "FILE_SYSTEM_ERROR")
    ∧ (strContains msg "API key" = false → strContains msg "apiKey" = false →
        strContains msg "file not found" = false → strContains msg "ENOENT" = false →
        (strContains msg "config" = true ∨ strContains msg "configuration" = true) →
        (wrapError (ErrValue.jsError msg) d).code = "CONFIG_ERROR") := by
  rw [wrapError_jsError]
  refine ⟨?_, ?_, ?_⟩
  · intro h
    rcases h with h | h <;>
      simp [h, code_mkApiKeyError]
  · intro h1 h2 h
    rcases h with h | h <;>
      simp [h1, h2, h, code_mkFileSystemError]
  · intro h1 h2 h3 h4 h
    rcases h with h | h <;>
      simp [h1, h2, h3, h4, h, code_mkConfigError]

theorem wrapError_rules_ordered_witness :
    (wrapError (ErrValue.jsError "API key is missing") defaultWrapMessage).code =
        "INVALID_API_KEY"
    ∧ (wrapError (ErrValue.jsError "ENOENT: no such file") defaultWrapMessage).code =
        "FILE_SYSTEM_ERROR"
    ∧ (wrapError (ErrValue.jsError "bad configuration") defaultWrapMessage).code =
        "CONFIG_ERROR" :=
  ⟨(wrapError_rules_ordered "API key is missing" defaultWrapMessage).1
      (Or.inl (by decide)),
   (wrapError_rules_ordered "ENOENT: no such file" defaultWrapMessage).2.1
      (by decide) (by decide) (Or.inr (by decide)),
   (wrapError_rules_ordered "bad configuration" defaultWrapMessage).2.2
      (by decide) (by decide) (by decide) (by decide) (Or.inl (by decide))⟩

/-- C7 counterexample: "boom" and "zap" match none of the claimed
categorization substrings; `wrapError` does produce the fallback code
UNKNOWN_ERROR, but the message is the raw input message, not a generic
input-independent one — and "apiKey broken" matches none of the
claimed markers either, yet is not classified as Unknown at all. -/
theorem wrapError_fallback_cex :
    (wrapError (ErrValue.jsError "boom") defaultWrapMessage).code = "UNKNOWN_ERROR"
    ∧ (wrapError (ErrValue.jsError "boom") defaultWrapMessage).message = "boom"
    ∧ (wrapError (ErrValue.jsError "zap") defaultWrapMessage).message = "zap"
    ∧ ("boom" : String) ≠ "zap"
    ∧ ("boom" : String) ≠ defaultWrapMessage
    ∧ (wrapError (ErrValue.jsError "apiKey broken") defaultWrapMessage).code =
        "INVALID_API_KEY" := by
  refine ⟨?_, ?_, ?_, by decide, by decide, ?_⟩ <;> decide

/-- C7 (amended): a raw failure whose message contains none of the
markers "API key", "apiKey", "file not found", "ENOENT", "config",
"configuration" falls back to a plain `BaseError` with code
UNKNOWN_ERROR carrying the original message — the generic default
message is used only when the original message is empty. -/
theorem wrapError_fallback (msg d : String)
    (h1 : strContains msg "API key" = false) (h2 : strContains msg "apiKey" = false)
    (h3 : strContains msg "file not found" = false)
    (h4 : strContains msg "ENOENT" = false)
    (h5 : strContains msg "config" = false)
    (h6 : strContains msg "configuration" = false) :
    (wrapError (ErrValue.jsError msg) d).code = "UNKNOWN_ERROR"
    ∧ (wrapError (ErrValue.jsError msg) d).message =
        (if msg = "" then d else msg) := by
  rw [wrapError_jsError]
  simp [h1, h2, h3, h4, h5, h6, code_mkBaseError_noOpts, message_mkBaseError, jsOrStr]

theorem wrapError_fallback_witness :
    (wrapError (ErrValue.jsError "boom") defaultWrapMessage).code = "UNKNOWN_ERROR"
    ∧ (wrapError (ErrValue.jsError "boom") defaultWrapMessage).message =
        (if ("boom" : String) = "" then defaultWrapMessage else "boom") :=
  wrapError_fallback "boom" defaultWrapMessage (by decide) (by decide) (by decide)
    (by decide) (by decide) (by decide)

/-- C10: on any input that is not already a classified error, the
message-sniffing classifier only ever produces the codes
INVALID_API_KEY, FILE_SYSTEM_ERROR, CONFIG_ERROR or UNKNOWN_ERROR —
never the AUTH_ERROR code of a directly constructed `AuthError`. -/
theorem wrapError_never_auth (e : ErrValue) (d : String)
    (h : ∀ b, e ≠ ErrValue.base b) :
    ((wrapError e d).code = "INVALID_API_KEY"
      ∨ (wrapError e d).code = "FILE_SYSTEM_ERROR"
      ∨ (wrapError e d).code = "CONFIG_ERROR"
      ∨ (wrapError e d).code = "UNKNOWN_ERROR")
    ∧ ∀ (m : String) (o : ErrorOptions), (wrapError e d).code ≠ (mkAuthError m o).code := by
  have hcases : (wrapError e d).code = "INVALID_API_KEY"
      ∨ (wrapError e d).code = "FILE_SYSTEM_ERROR"
      ∨ (wrapError e d).code = "CONFIG_ERROR"
      ∨ (wrapError e d).code = "UNKNOWN_ERROR" := by
    cases e with
    | base b => exact absurd rfl (h b)
    | jsError m =>
        rw [wrapError_jsError]
        split
        · exact Or.inl (code_mkApiKeyError _ _)
        · split
          · exact Or.inr (Or.inl (code_mkFileSystemError _ _))
          · split
            · exact Or.inr (Or.inr (Or.inl (code_mkConfigError _ _)))
            · exact Or.inr (Or.inr (Or.inr (code_mkBaseError_noOpts _)))
    | other r =>
        rw [wrapError_other]
        split
        · exact Or.inl (code_mkApiKeyError _ _)
        · split
          · exact Or.inr (Or.inl (code_mkFileSystemError _ _))
          · split
            · exact Or.inr (Or.inr (Or.inl (code_mkConfigError _ _)))
            · exact Or.inr (Or.inr (Or.inr (code_mkBaseError_noOpts _)))
  refine ⟨hcases, ?_⟩
  intro m o
  rw [code_mkAuthError]
  rcases hcases with hc | hc | hc | hc <;> rw [hc] <;> decide

theorem wrapError_never_auth_witness :
    ((wrapError (ErrValue.jsError "boom") defaultWrapMessage).code = "INVALID_API_KEY"
      ∨ (wrapError (ErrValue.jsError "boom") defaultWrapMessage).code = "FILE_SYSTEM_ERROR"
      ∨ (wrapError (ErrValue.jsError "boom") defaultWrapMessage).code = "CONFIG_ERROR"
      ∨ (wrapError (ErrValue.jsError "boom") defaultWrapMessage).code = "UNKNOWN_ERROR")
    ∧ ∀ (m : String) (o : ErrorOptions),
        (wrapError (ErrValue.jsError "boom") defaultWrapMessage).code ≠
          (mkAuthError m o).code :=
  wrapError_never_auth (ErrValue.jsError "boom") defaultWrapMessage
    (fun _ hb => nomatch hb)

/-! ## Substring decomposition lemmas for prompt shaping -/

theorem splitPrefixAppend {α : Type} {pat a b : List α} (h : pat <+: a ++ b) :
    pat <+: a ∨ (a <+: pat ∧ pat.drop a.length <+: b) := by
  rcases h with ⟨t, ht⟩
  rcases List.append_eq_append_iff.mp ht with ⟨w, hw1, _⟩ | ⟨w, hw1, hw2⟩
  · exact Or.inl ⟨w, hw1.symm⟩
  · right
    refine ⟨⟨w, hw1.symm⟩, ⟨t, ?_⟩⟩
    have hdw : pat.drop a.length = w := by
      rw [hw1]
      exact List.drop_left a w
    rw [hdw, hw2]

theorem splitInfixAppend {α : Type} {pat a b : List α} (h : pat <:+: a ++ b) :
    pat <:+: a ∨ pat <:+: b ∨
      ∃ p q, p ++ q = pat ∧ p ≠ [] ∧ q ≠ [] ∧ p <:+ a ∧ q <+: b := by
  induction a with
  | nil =>
      right
      left
      simpa using h
  | cons x a' ih =>
      rw [List.cons_append] at h
      rcases List.infix_cons_iff.mp h with hpre | htail
      · rw [← List.cons_append] at hpre
        rcases splitPrefixAppend hpre with hpa | ⟨hap, hdrop⟩
        · exact Or.inl hpa.isInfix
        · obtain ⟨w, hw⟩ := hap
          have hdw : pat.drop (x :: a').length = w := by
            rw [← hw]
            exact List.drop_left _ _
          by_cases hq : pat.drop (x :: a').length = []
          · have hw0 : w = [] := by rw [← hdw, hq]
            have hpx : pat = x :: a' := by rw [← hw, hw0, List.append_nil]
            rw [hpx]
            exact Or.inl (List.infix_refl _)
          · right
            right
            refine ⟨x :: a', pat.drop (x :: a').length, ?_, by simp, hq,
              List.suffix_refl _, hdrop⟩
            rw [hdw]
            exact hw
      · rcases ih htail with h1 | h1 | ⟨p, q, hpq, hp, hq, hsuf, hpre2⟩
        · exact Or.inl (List.infix_cons h1)
        · exact Or.inr (Or.inl h1)
        · exact Or.inr (Or.inr
            ⟨p, q, hpq, hp, hq, hsuf.trans (List.suffix_cons x a'), hpre2⟩)

/-- If a pattern occurs in none of the four segments `A`, `l`, `B`, `s`
and cannot straddle any of the three boundaries (the decidable side
conditions on its concrete prefixes and suffixes), it does not occur in
the concatenation `A ++ l ++ B ++ s`. -/
theorem notInfixOfSegments (pat A B l s : List Char)
    (hA : ¬ pat <:+: A) (hB : ¬ pat <:+: B)
    (hl : ¬ pat <:+: l) (hs : ¬ pat <:+: s)
    (hlen : pat.length ≤ B.length)
    (cA : ∀ k, k < pat.length → 0 < k → ¬ (List.take k pat <:+ A))
    (cL : ∀ k, k < pat.length → 0 < k → ¬ (List.drop k pat <+: B))
    (cB : ∀ k, k < pat.length → 0 < k → ¬ (List.take k pat <:+ B)) :
    ¬ pat <:+: A ++ (l ++ (B ++ s)) := by
  intro h
  rcases splitInfixAppend h with h1 | h1 | ⟨p, q, hpq, hp, hq, hsuf, _⟩
  · exact hA h1
  · rcases splitInfixAppend h1 with h2 | h2 | ⟨p, q, hpq, hp, hq, _, hpre⟩
    · exact hl h2
    · rcases splitInfixAppend h2 with h3 | h3 | ⟨p, q, hpq, hp, hq, hsuf, _⟩
      · exact hB h3
      · exact hs h3
      · have hple : p <+: pat := ⟨q, hpq⟩
        have hlensum : p.length + q.length = pat.length := by
          have := congrArg List.length hpq
          simpa [List.length_append] using this
        have hqpos : 0 < q.length := List.length_pos.mpr hq
        have hppos : 0 < p.length := List.length_pos.mpr hp
        have hpeq : p = List.take p.length pat := List.prefix_iff_eq_take.mp hple
        exact cB p.length (by omega) hppos (hpeq ▸ hsuf)
    · have hdw : List.drop p.length pat = q := by
        rw [← hpq]
        exact List.drop_left _ _
      have hlensum : p.length + q.length = pat.length := by
        have := congrArg List.length hpq
        simpa [List.length_append] using this
      have hqpos : 0 < q.length := List.length_pos.mpr hq
      have hppos : 0 < p.length := List.length_pos.mpr hp
      rcases splitPrefixAppend hpre with hqB | ⟨hBq, _⟩
      · exact cL p.length (by omega) hppos (hdw ▸ hqB)
      · have hble : B.length ≤ q.length := hBq.length_le
        omega
  · have hple : p <+: pat := ⟨q, hpq⟩
    have hlensum : p.length + q.length = pat.length := by
      have := congrArg List.length hpq
      simpa [List.length_append] using this
    have hqpos : 0 < q.length := List.length_pos.mpr hq
    have hppos : 0 < p.length := List.length_pos.mpr hp
    have hpeq : p = List.take p.length pat := List.prefix_iff_eq_take.mp hple
    exact cA p.length (by omega) hppos (hpeq ▸ hsuf)

/-- The fixed instruction text preceding the language name in every
prompt. -/
def promptHead : String := "Summarize the following "

/-- The fixed text following the language name in a default-options
prompt (budget `500`, no detail qualifier), up to the embedded source
text. -/
def promptDefaultTail : String := " code in approximately 500 characters.\n\n"

theorem buildPrompt_default_data (s l : String) :
    (buildPrompt s l defaultOptions).data =
      promptHead.data ++ (l.data ++ (promptDefaultTail.data ++ s.data)) := by
  have h500 : toString (500 : Nat) = "500" := rfl
  have htail : promptDefaultTail.data =
      " code in approximately ".data ++
        ("500".data ++ (" characters.".data ++ "\n\n".data)) := rfl
  have hnil : ("" : String).data = ([] : List Char) := rfl
  simp [buildPrompt, defaultOptions, detailPhrase, promptHead, h500, htail, hnil,
    String.data_append, List.append_assoc]

set_option maxRecDepth 4096 in
/-- C9 counterexample: with default options and the source text
"very brief", the prompt does contain "very brief" — the claimed
exclusion cannot hold for every source text, because the source text is
embedded in the prompt. -/
theorem buildPrompt_excludes_cex :
    strContains (buildPrompt "very brief" "JavaScript" defaultOptions) "very brief" =
      true := by
  decide

/-- C9 (amended): for every source text and language, a
`detailLevel = high` prompt contains "detailed analysis" and a
default-options prompt contains "500 characters"; and — provided
neither "very brief" nor "detailed analysis" occurs in the source text
or in the language name — the default-options prompt contains neither
phrase. -/
theorem buildPrompt_shaping (s l : String) (n : Nat)
    (hl1 : strContains l "very brief" = false)
    (hs1 : strContains s "very brief" = false)
    (hl2 : strContains l "detailed analysis" = false)
    (hs2 : strContains s "detailed analysis" = false) :
    strContains (buildPrompt s l ⟨DetailLevel.high, n⟩) "detailed analysis" = true
    ∧ strContains (buildPrompt s l defaultOptions) "500 characters" = true
    ∧ strContains (buildPrompt s l defaultOptions) "very brief" = false
    ∧ strContains (buildPrompt s l defaultOptions) "detailed analysis" = false := by
  have hl1' : ¬ "very brief".data <:+: l.data := by
    simpa [strContains] using hl1
  have hs1' : ¬ "very brief".data <:+: s.data := by
    simpa [strContains] using hs1
  have hl2' : ¬ "detailed analysis".data <:+: l.data := by
    simpa [strContains] using hl2
  have hs2' : ¬ "detailed analysis".data <:+: s.data := by
    simpa [strContains] using hs2
  refine ⟨?_, ?_, ?_, ?_⟩
  · simp only [strContains, decide_eq_true_eq]
    have h1 : "detailed analysis".data <:+: (detailPhrase DetailLevel.high).data := by
      decide
    refine h1.trans ?_
    refine ⟨("Summarize the following " ++ l ++ " code in approximately " ++
      toString n ++ " characters.").data, ("\n\n" ++ s).data, ?_⟩
    simp [buildPrompt, detailPhrase, String.data_append, List.append_assoc]
  · simp only [strContains, decide_eq_true_eq]
    rw [buildPrompt_default_data]
    have h2 : "500 characters".data <:+: promptDefaultTail.data := by
      decide
    exact h2.trans ⟨promptHead.data ++ l.data, s.data, by simp [List.append_assoc]⟩
  · simp only [strContains, decide_eq_false_iff_not]
    rw [buildPrompt_default_data]
    exact notInfixOfSegments _ _ _ _ _ (by decide) (by decide) hl1' hs1' (by decide)
      (by decide) (by decide) (by decide)
  · simp only [strContains, decide_eq_false_iff_not]
    rw [buildPrompt_default_data]
    exact notInfixOfSegments _ _ _ _ _ (by decide) (by decide) hl2' hs2' (by decide)
      (by decide) (by decide) (by decide)

theorem buildPrompt_shaping_witness :
    strContains (buildPrompt "function test()" "JavaScript" ⟨DetailLevel.high, 1000⟩)
        "detailed analysis" = true
    ∧ strContains (buildPrompt "function test()" "JavaScript" defaultOptions)
        "500 characters" = true
    ∧ strContains (buildPrompt "function test()" "JavaScript" defaultOptions)
        "very brief" = false
    ∧ strContains (buildPrompt "function test()" "JavaScript" defaultOptions)
        "detailed analysis" = false :=
  buildPrompt_shaping "function test()" "JavaScript" 1000 (by decide) (by decide)
    (by decide) (by decide)
